import Mathlib

/-!
Shallow embedding of the console banking application (`src/main.py`).

The SQLite database is modelled as explicit state (`BankState`): the
`users`, `accounts` and `transactions` tables are lists of rows, and the
CSV audit trail (`transactions.csv`, written by `log_to_csv`) is the
`csvLog` list.  `AUTOINCREMENT` ids are modelled by the `nextId` counter.
Balances and amounts are modelled as exact signed integers (`Int`, read
as an exact count of the smallest currency unit); the source stores them
as Python floats / SQLite `REAL`, so binary floating-point rounding
itself is outside this embedding — the control flow only adds and
compares amounts, which behaves identically over any exact ordered
domain.  Console input that the source reads with `input(...)` becomes a
function argument; a call of `float(...)` that may raise `ValueError`
becomes an `Option Int` argument (`none` = the exception was raised).
The SHA-256 digest of `hash_pin` is irrelevant to the ledger logic, so
the development is parameterized over the hash function
`hash_pin : String → String`.  Timestamps (`datetime.now()`) are passed
in as a `String` argument `now`.
-/

/-- Python `str.strip()`: drops whitespace from both ends. -/
def strip (s : String) : String :=
  ⟨((s.data.dropWhile Char.isWhitespace).reverse.dropWhile
      Char.isWhitespace).reverse⟩

/-- Python `str.upper()` on the ASCII inputs used here. -/
def upper (s : String) : String :=
  ⟨s.data.map Char.toUpper⟩

/-- Python `str.isdigit()` on ASCII input: nonempty and all digits. -/
def isdigit (s : String) : Bool :=
  !s.data.isEmpty && s.data.all Char.isDigit

/-- A row of the `users` table: `(id, username, pin_hash, name)`. -/
structure User where
  id : Nat
  username : String
  pinHash : String
  name : String
deriving DecidableEq

/-- A row of the `accounts` table: `(user_id, checking, savings)`. -/
structure AccountRow where
  userId : Nat
  checking : Int
  savings : Int
deriving DecidableEq

/-- A row of the `transactions` table (the database audit store). -/
structure TxRecord where
  userId : Nat
  account_type : String
  old_balance : Int
  amount : Int
  new_balance : Int
  timestamp : String
deriving DecidableEq

/-- A data row of `transactions.csv`, as written by `log_to_csv`.  The
source serializes the three numeric fields with two-decimal display
formatting; the embedding keeps the values themselves. -/
structure CsvRecord where
  timestamp : String
  username : String
  account_type : String
  old_balance : Int
  amount : Int
  new_balance : Int
deriving DecidableEq

/-- The whole persistent state: the three SQLite tables, the CSV audit
log, and the autoincrement counter for `users.id`. -/
structure BankState where
  users : List User
  accounts : List AccountRow
  transactions : List TxRecord
  csvLog : List CsvRecord
  nextId : Nat
deriving DecidableEq

/-- `get_user`: `SELECT id, username, pin_hash, name FROM users WHERE
username = ?`, returning the first matching row or none. -/
def get_user (st : BankState) (username : String) : Option User :=
  st.users.find? (fun u => u.username == username)

/-- `get_user_by_id`: same lookup keyed by `id`. -/
def get_user_by_id (st : BankState) (user_id : Nat) : Option User :=
  st.users.find? (fun u => u.id == user_id)

/-- `create_user`: inserts a `users` row (fresh autoincrement id) and an
`accounts` row, returning the new id. -/
def create_user (st : BankState) (username name pin_hash : String)
    (checking savings : Int) : Nat × BankState :=
  let user_id := st.nextId
  (user_id,
   { st with
      users := st.users ++ [⟨user_id, username, pin_hash, name⟩],
      accounts := st.accounts ++ [⟨user_id, checking, savings⟩],
      nextId := st.nextId + 1 })

/-- `get_balance`: reads the `checking` column when `account_type` is
`"C"`, otherwise the `savings` column, from the account row of `user_id`.
The source crashes (`fetchone()[0]` on `None`) when no row exists; the
embedding returns `none` there. -/
def get_balance (st : BankState) (user_id : Nat) (account_type : String) :
    Option Int :=
  match st.accounts.find? (fun a => a.userId == user_id) with
  | none => none
  | some a => some (if account_type = "C" then a.checking else a.savings)

/-- `update_balance`: `UPDATE accounts SET <column> = ? WHERE user_id = ?`.
An unconditional write: no validation, and a missing `user_id` simply
matches zero rows. -/
def update_balance (st : BankState) (user_id : Nat) (account_type : String)
    (new_balance : Int) : BankState :=
  { st with
      accounts := st.accounts.map (fun a =>
        if a.userId == user_id then
          if account_type = "C" then { a with checking := new_balance }
          else { a with savings := new_balance }
        else a) }

/-- `record_transaction`: inserts one `transactions` row, then (when the
user id still resolves) appends one CSV row via `log_to_csv` with the
user's username. -/
def record_transaction (st : BankState) (user_id : Nat)
    (account_type : String) (old_balance amount new_balance : Int)
    (now : String) : BankState :=
  let st1 := { st with
    transactions := st.transactions ++
      [⟨user_id, account_type, old_balance, amount, new_balance, now⟩] }
  match get_user_by_id st1 user_id with
  | some user =>
      { st1 with
          csvLog := st1.csvLog ++
            [⟨now, user.username, account_type, old_balance, amount,
              new_balance⟩] }
  | none => st1

/-- Outcome of `create_account`, one constructor per `print`-and-return
exit of the source plus the success path. -/
inductive CreateResult where
  | emptyUsername
  | usernameExists
  | invalidPinFormat
  | success (user_id : Nat)
deriving DecidableEq

/-- Outcome of `delete_account`. -/
inductive DeleteResult where
  | notFound
  | deleted
deriving DecidableEq

/-- Outcome of `make_transaction`, one constructor per exit path.
`missingAccountRow` stands for the `TypeError` crash of `get_balance`
when the account row is absent. -/
inductive TxResult where
  | noSuchUser
  | invalidPin
  | invalidAccountType
  | missingAccountRow
  | invalidAmount
  | insufficientFunds
  | success (new_balance : Int)
deriving DecidableEq

section Bank

variable (hash_pin : String → String)

/-- `create_account`: reads a username (stripped; empty rejected),
rejects a duplicate username, requires the PIN to be exactly four digits
(one attempt; otherwise the flow aborts), then reads the two initial
deposits, each coerced to `0.0` when `float(...)` raises `ValueError`
(`checkingInput`/`savingsInput` = `none`), and creates the user. -/
def create_account (st : BankState)
    (usernameInput pinInputRaw nameInput : String)
    (checkingInput savingsInput : Option Int) : CreateResult × BankState :=
  let username := strip usernameInput
  if username = "" then (.emptyUsername, st)
  else if (get_user st username).isSome then (.usernameExists, st)
  else
    let pin_input := strip pinInputRaw
    if !(isdigit pin_input && pin_input.length == 4) then
      (.invalidPinFormat, st)
    else
      let name := strip nameInput
      let checking := checkingInput.getD 0
      let savings := savingsInput.getD 0
      let r := create_user st username name (hash_pin pin_input)
        checking savings
      (.success r.1, r.2)

/-- `delete_account`: looks the user up by username and deletes the
matching `transactions`, `accounts` and `users` rows.  The CSV audit log
is not touched by the source. -/
def delete_account (st : BankState) (usernameInput : String) :
    DeleteResult × BankState :=
  let username := strip usernameInput
  match get_user st username with
  | none => (.notFound, st)
  | some user =>
      (.deleted,
       { st with
          transactions := st.transactions.filter
            (fun t => !(t.userId == user.id)),
          accounts := st.accounts.filter (fun a => !(a.userId == user.id)),
          users := st.users.filter (fun u => !(u.id == user.id)) })

/-- `make_transaction`: the full transaction flow of the source — user
lookup, a single PIN comparison against the stored hash, account-type
validation, balance read, amount parse (`none` = `ValueError`), the
`old_balance + amount < 0` insufficient-funds check, and on success the
balance write followed by the audit insert. -/
def make_transaction (st : BankState)
    (usernameInput pinInput accountTypeInput : String)
    (amountInput : Option Int) (now : String) : TxResult × BankState :=
  let username := strip usernameInput
  match get_user st username with
  | none => (.noSuchUser, st)
  | some user =>
    let pin := strip pinInput
    if hash_pin pin ≠ user.pinHash then (.invalidPin, st)
    else
      let account_type := upper (strip accountTypeInput)
      if !(account_type == "C" || account_type == "S") then
        (.invalidAccountType, st)
      else
        match get_balance st user.id account_type with
        | none => (.missingAccountRow, st)
        | some old_balance =>
          match amountInput with
          | none => (.invalidAmount, st)
          | some amount =>
            if old_balance + amount < 0 then (.insufficientFunds, st)
            else
              let new_balance := old_balance + amount
              let st1 := update_balance st user.id account_type new_balance
              let st2 := record_transaction st1 user.id account_type
                old_balance amount new_balance now
              (.success new_balance, st2)

end Bank

/-- The non-negative-balance invariant of the spec: both stored balances
of every account are `≥ 0`. -/
def balancesNonneg (st : BankState) : Prop :=
  ∀ a ∈ st.accounts, 0 ≤ a.checking ∧ 0 ≤ a.savings

/-- A stand-in hash function for concrete witnesses (the ledger logic
only compares digests for equality). -/
def sampleHash (s : String) : String := "h" ++ s

/-- Sample user mirroring the seeded test account `alice`. -/
def alice : User := ⟨1, "alice", sampleHash "1111", "Alice Smith"⟩

/-- Sample user mirroring the seeded test account `bob`. -/
def bobUser : User := ⟨2, "bob", sampleHash "2222", "Bob Johnson"⟩

/-- A small concrete state with the seeded accounts `alice` and `bob`. -/
def sampleState : BankState :=
  { users := [alice, bobUser],
    accounts := [⟨1, 1500, 500⟩, ⟨2, 2500, 1000⟩],
    transactions := [],
    csvLog := [],
    nextId := 3 }

/-- Like `sampleState` but with one committed transaction of `alice`
already recorded in both audit stores. -/
def sampleState2 : BankState :=
  { users := [alice, bobUser],
    accounts := [⟨1, 1510, 500⟩, ⟨2, 2500, 1000⟩],
    transactions := [⟨1, "C", 1500, 10, 1510, "t0"⟩],
    csvLog := [⟨"t0", "alice", "C", 1500, 10, 1510⟩],
    nextId := 3 }

/-- The empty initial state (fresh database, no CSV file yet). -/
def emptyState : BankState :=
  { users := [], accounts := [], transactions := [], csvLog := [],
    nextId := 1 }

/-! ### Helper lemmas about the store operations -/

theorem record_transaction_transactions (st : BankState) (uid : Nat)
    (t : String) (o a n : Int) (now : String) :
    (record_transaction st uid t o a n now).transactions =
      st.transactions ++ [⟨uid, t, o, a, n, now⟩] := by
  unfold record_transaction
  cases h : get_user_by_id
      { st with transactions := st.transactions ++ [⟨uid, t, o, a, n, now⟩] }
      uid <;> simp [h]

theorem record_transaction_accounts (st : BankState) (uid : Nat)
    (t : String) (o a n : Int) (now : String) :
    (record_transaction st uid t o a n now).accounts = st.accounts := by
  unfold record_transaction
  cases h : get_user_by_id
      { st with transactions := st.transactions ++ [⟨uid, t, o, a, n, now⟩] }
      uid <;> simp [h]

theorem record_transaction_users (st : BankState) (uid : Nat)
    (t : String) (o a n : Int) (now : String) :
    (record_transaction st uid t o a n now).users = st.users := by
  unfold record_transaction
  cases h : get_user_by_id
      { st with transactions := st.transactions ++ [⟨uid, t, o, a, n, now⟩] }
      uid <;> simp [h]

theorem record_transaction_csvLog (st : BankState) (uid : Nat)
    (t : String) (o a n : Int) (now : String) (u : User)
    (hu : get_user_by_id st uid = some u) :
    (record_transaction st uid t o a n now).csvLog =
      st.csvLog ++ [⟨now, u.username, t, o, a, n⟩] := by
  have hu2 : get_user_by_id
      { st with transactions := st.transactions ++ [⟨uid, t, o, a, n, now⟩] }
      uid = some u := hu
  unfold record_transaction
  simp [hu2]

theorem update_balance_users (st : BankState) (uid : Nat) (t : String)
    (nb : Int) : (update_balance st uid t nb).users = st.users := rfl

theorem update_balance_transactions (st : BankState) (uid : Nat)
    (t : String) (nb : Int) :
    (update_balance st uid t nb).transactions = st.transactions := rfl

theorem update_balance_csvLog (st : BankState) (uid : Nat) (t : String)
    (nb : Int) : (update_balance st uid t nb).csvLog = st.csvLog := rfl

theorem find?_map_update (l : List AccountRow) (uid : Nat) (t : String)
    (nb : Int) (row : AccountRow)
    (h : l.find? (fun a => a.userId == uid) = some row) :
    (l.map (fun a =>
        if a.userId == uid then
          if t = "C" then { a with checking := nb }
          else { a with savings := nb }
        else a)).find? (fun a => a.userId == uid) =
      some (if t = "C" then { row with checking := nb }
            else { row with savings := nb }) := by
  have hrow : (row.userId == uid) = true := by
    have h2 := List.find?_some h
    exact h2
  have hpf : ((fun a : AccountRow => a.userId == uid) ∘ (fun a =>
      if a.userId == uid then
        if t = "C" then { a with checking := nb }
        else { a with savings := nb }
      else a)) = (fun a : AccountRow => a.userId == uid) := by
    funext a
    by_cases ha : (a.userId == uid) = true <;>
      by_cases hc : t = "C" <;>
        simp [Function.comp, ha, hc]
  rw [List.find?_map, hpf, h, Option.map_some']
  by_cases hc : t = "C" <;> simp [hrow, hc]

theorem get_balance_update_balance (st : BankState) (uid : Nat)
    (t : String) (nb : Int) (row : AccountRow)
    (h : st.accounts.find? (fun a => a.userId == uid) = some row) :
    get_balance (update_balance st uid t nb) uid t = some nb := by
  unfold get_balance update_balance
  rw [find?_map_update st.accounts uid t nb row h]
  by_cases hc : t = "C" <;> simp [hc]

theorem get_balance_record_transaction (st : BankState) (uid uid2 : Nat)
    (t t2 : String) (o a n : Int) (now : String) :
    get_balance (record_transaction st uid t o a n now) uid2 t2 =
      get_balance st uid2 t2 := by
  unfold get_balance
  rw [record_transaction_accounts]

theorem get_user_by_id_update_balance (st : BankState) (uid uid2 : Nat)
    (t : String) (nb : Int) :
    get_user_by_id (update_balance st uid t nb) uid2 =
      get_user_by_id st uid2 := rfl

theorem get_balance_some_find? (st : BankState) (uid : Nat) (t : String)
    (v : Int) (h : get_balance st uid t = some v) :
    ∃ row, st.accounts.find? (fun a => a.userId == uid) = some row := by
  unfold get_balance at h
  cases hf : st.accounts.find? (fun a => a.userId == uid) with
  | none => rw [hf] at h; exact absurd h (by simp)
  | some row => exact ⟨row, rfl⟩

theorem find?_filter_none {α : Type} (l : List α) (p q : α → Bool)
    (h : ∀ a ∈ l, p a = true → q a = false) :
    (l.filter p).find? q = none := by
  rw [List.find?_eq_none]
  intro x hx
  have hx2 := List.mem_filter.mp hx
  simp [h x hx2.1 hx2.2]

theorem balancesNonneg_update_balance (st : BankState) (uid : Nat)
    (t : String) (nb : Int) (hinv : balancesNonneg st) (hnb : 0 ≤ nb) :
    balancesNonneg (update_balance st uid t nb) := by
  intro a ha
  unfold update_balance at ha
  simp only [List.mem_map] at ha
  obtain ⟨b, hb, rfl⟩ := ha
  have hb2 := hinv b hb
  by_cases h1 : (b.userId == uid) = true <;> by_cases h2 : t = "C" <;>
    simp [h1, h2, hb2.1, hb2.2, hnb]

theorem balancesNonneg_record_transaction (st : BankState) (uid : Nat)
    (t : String) (o a n : Int) (now : String) (hinv : balancesNonneg st) :
    balancesNonneg (record_transaction st uid t o a n now) := by
  intro x hx
  rw [record_transaction_accounts] at hx
  exact hinv x hx

/-! ### Branch characterizations of `make_transaction` -/

theorem make_transaction_snd_cases (hash_pin : String → String)
    (st : BankState) (uIn pIn aIn : String) (amtIn : Option Int)
    (now : String) :
    (make_transaction hash_pin st uIn pIn aIn amtIn now).2 = st ∨
    ∃ uid t old amt, 0 ≤ old + amt ∧
      (make_transaction hash_pin st uIn pIn aIn amtIn now).2 =
        record_transaction (update_balance st uid t (old + amt))
          uid t old amt (old + amt) now := by
  unfold make_transaction
  dsimp only
  split
  · exact Or.inl rfl
  · split
    · exact Or.inl rfl
    · split
      · exact Or.inl rfl
      · split
        · exact Or.inl rfl
        · split
          · exact Or.inl rfl
          · split
            · exact Or.inl rfl
            · rename_i hnlt
              exact Or.inr ⟨_, _, _, _, by omega, rfl⟩

theorem make_transaction_invalidPin (hash_pin : String → String)
    (st : BankState) (uIn pIn aIn : String) (amtIn : Option Int)
    (now : String) (user : User)
    (hu : get_user st (strip uIn) = some user)
    (hp : hash_pin (strip pIn) ≠ user.pinHash) :
    make_transaction hash_pin st uIn pIn aIn amtIn now =
      (.invalidPin, st) := by
  unfold make_transaction
  simp [hu, hp]

theorem make_transaction_invalidAmount (hash_pin : String → String)
    (st : BankState) (uIn pIn aIn : String) (now : String) (user : User)
    (old : Int)
    (hu : get_user st (strip uIn) = some user)
    (hp : hash_pin (strip pIn) = user.pinHash)
    (ht : upper (strip aIn) = "C" ∨ upper (strip aIn) = "S")
    (hb : get_balance st user.id (upper (strip aIn)) = some old) :
    make_transaction hash_pin st uIn pIn aIn none now =
      (.invalidAmount, st) := by
  unfold make_transaction
  rcases ht with ht | ht <;>
    (rw [ht] at hb; simp [hu, hp, ht, hb])

theorem make_transaction_insufficient (hash_pin : String → String)
    (st : BankState) (uIn pIn aIn : String) (amt : Int) (now : String)
    (user : User) (old : Int)
    (hu : get_user st (strip uIn) = some user)
    (hp : hash_pin (strip pIn) = user.pinHash)
    (ht : upper (strip aIn) = "C" ∨ upper (strip aIn) = "S")
    (hb : get_balance st user.id (upper (strip aIn)) = some old)
    (hlt : old + amt < 0) :
    make_transaction hash_pin st uIn pIn aIn (some amt) now =
      (.insufficientFunds, st) := by
  unfold make_transaction
  rcases ht with ht | ht <;>
    (rw [ht] at hb; simp [hu, hp, ht, hb, hlt])

theorem make_transaction_success (hash_pin : String → String)
    (st : BankState) (uIn pIn aIn : String) (amt : Int) (now : String)
    (user : User) (old : Int)
    (hu : get_user st (strip uIn) = some user)
    (hp : hash_pin (strip pIn) = user.pinHash)
    (ht : upper (strip aIn) = "C" ∨ upper (strip aIn) = "S")
    (hb : get_balance st user.id (upper (strip aIn)) = some old)
    (hge : 0 ≤ old + amt) :
    make_transaction hash_pin st uIn pIn aIn (some amt) now =
      (.success (old + amt),
       record_transaction
         (update_balance st user.id (upper (strip aIn)) (old + amt))
         user.id (upper (strip aIn)) old amt (old + amt) now) := by
  unfold make_transaction
  have hnlt : ¬ old + amt < 0 := not_lt.mpr hge
  rcases ht with ht | ht <;>
    (rw [ht] at hb; simp [hu, hp, ht, hb, hnlt])

/-! ### Claims -/

/-- C1: for every account, account class and signed amount, if the
current balance plus the amount is strictly negative, `make_transaction`
rejects with insufficient funds and returns the state unchanged — so
every stored balance is untouched and no record is appended to the
`transactions` store or to the CSV audit log. -/
theorem C1_insufficient_rejected_no_mutation (hash_pin : String → String)
    (st : BankState) (uIn pIn aIn : String) (amt : Int) (now : String)
    (user : User) (old : Int)
    (hu : get_user st (strip uIn) = some user)
    (hp : hash_pin (strip pIn) = user.pinHash)
    (ht : upper (strip aIn) = "C" ∨ upper (strip aIn) = "S")
    (hb : get_balance st user.id (upper (strip aIn)) = some old)
    (hlt : old + amt < 0) :
    make_transaction hash_pin st uIn pIn aIn (some amt) now =
      (.insufficientFunds, st) :=
  make_transaction_insufficient hash_pin st uIn pIn aIn amt now user old
    hu hp ht hb hlt

/-- Witness for C1: alice (checking 1500), amount −2000. -/
theorem C1_witness :
    make_transaction sampleHash sampleState "alice" "1111" "C"
      (some (-2000)) "t1" = (.insufficientFunds, sampleState) :=
  C1_insufficient_rejected_no_mutation sampleHash sampleState "alice"
    "1111" "C" (-2000) "t1" alice 1500 (by decide) (by decide)
    (Or.inl (by decide)) (by decide) (by decide)

/-- C2: a successful transaction commits `old + amt` to the selected
balance and appends exactly one record to the `transactions` store and
exactly one row to the CSV audit log, whose account reference, account
class, old balance, amount and new balance are the inputs and outputs of
the call. -/
theorem C2_success_commits_and_audits (hash_pin : String → String)
    (st : BankState) (uIn pIn aIn : String) (amt : Int) (now : String)
    (user : User) (old : Int)
    (hu : get_user st (strip uIn) = some user)
    (hid : get_user_by_id st user.id = some user)
    (hp : hash_pin (strip pIn) = user.pinHash)
    (ht : upper (strip aIn) = "C" ∨ upper (strip aIn) = "S")
    (hb : get_balance st user.id (upper (strip aIn)) = some old)
    (hge : 0 ≤ old + amt) :
    (make_transaction hash_pin st uIn pIn aIn (some amt) now).1 =
        .success (old + amt)
    ∧ get_balance
        (make_transaction hash_pin st uIn pIn aIn (some amt) now).2
        user.id (upper (strip aIn)) = some (old + amt)
    ∧ (make_transaction hash_pin st uIn pIn aIn
        (some amt) now).2.transactions =
        st.transactions ++
          [⟨user.id, upper (strip aIn), old, amt, old + amt, now⟩]
    ∧ (make_transaction hash_pin st uIn pIn aIn (some amt) now).2.csvLog =
        st.csvLog ++
          [⟨now, user.username, upper (strip aIn), old, amt,
            old + amt⟩] := by
  have hs := make_transaction_success hash_pin st uIn pIn aIn amt now user
    old hu hp ht hb hge
  rw [hs]
  obtain ⟨row, hrow⟩ :=
    get_balance_some_find? st user.id (upper (strip aIn)) old hb
  refine ⟨rfl, ?_, ?_, ?_⟩
  · rw [get_balance_record_transaction]
    exact get_balance_update_balance st user.id (upper (strip aIn))
      (old + amt) row hrow
  · rw [record_transaction_transactions, update_balance_transactions]
  · have hid2 : get_user_by_id
        (update_balance st user.id (upper (strip aIn)) (old + amt))
        user.id = some user := by
      rw [get_user_by_id_update_balance]
      exact hid
    rw [record_transaction_csvLog _ _ _ _ _ _ _ user hid2,
      update_balance_csvLog]

/-- Witness for C2: bob (savings 1000), amount +250 → 1250, one record
in each audit store. -/
theorem C2_witness :
    (make_transaction sampleHash sampleState "bob" "2222" "S" (some 250)
        "t1").1 = .success 1250
    ∧ get_balance (make_transaction sampleHash sampleState "bob" "2222"
        "S" (some 250) "t1").2 2 "S" = some 1250
    ∧ (make_transaction sampleHash sampleState "bob" "2222" "S" (some 250)
        "t1").2.transactions =
        sampleState.transactions ++ [⟨2, "S", 1000, 250, 1250, "t1"⟩]
    ∧ (make_transaction sampleHash sampleState "bob" "2222" "S" (some 250)
        "t1").2.csvLog =
        sampleState.csvLog ++ [⟨"t1", "bob", "S", 1000, 250, 1250⟩] :=
  C2_success_commits_and_audits sampleHash sampleState "bob" "2222" "S"
    250 "t1" bobUser 1000 (by decide) (by decide) (by decide)
    (Or.inr (by decide)) (by decide) (by decide)

/-- C9: a transaction driving the balance exactly to zero
(`amt = -old`) is accepted, committed and audited like any other
success, and so is a zero amount; only strictly negative results are
rejected. -/
theorem C9_zero_result_and_zero_amount_accepted
    (hash_pin : String → String) (st : BankState) (uIn pIn aIn : String)
    (now : String) (user : User) (old : Int)
    (hu : get_user st (strip uIn) = some user)
    (hp : hash_pin (strip pIn) = user.pinHash)
    (ht : upper (strip aIn) = "C" ∨ upper (strip aIn) = "S")
    (hb : get_balance st user.id (upper (strip aIn)) = some old)
    (hold : 0 ≤ old) :
    ((make_transaction hash_pin st uIn pIn aIn (some (-old)) now).1 =
        .success 0
      ∧ (make_transaction hash_pin st uIn pIn aIn
          (some (-old)) now).2.transactions =
          st.transactions ++
            [⟨user.id, upper (strip aIn), old, -old, 0, now⟩])
    ∧ ((make_transaction hash_pin st uIn pIn aIn (some 0) now).1 =
        .success old
      ∧ (make_transaction hash_pin st uIn pIn aIn
          (some 0) now).2.transactions =
          st.transactions ++
            [⟨user.id, upper (strip aIn), old, 0, old, now⟩]) := by
  have h1 := make_transaction_success hash_pin st uIn pIn aIn (-old) now
    user old hu hp ht hb (by omega)
  have h2 := make_transaction_success hash_pin st uIn pIn aIn 0 now
    user old hu hp ht hb (by omega)
  rw [show old + -old = (0 : Int) by omega] at h1
  rw [show old + (0 : Int) = old by omega] at h2
  rw [h1, h2]
  exact ⟨⟨rfl, by rw [record_transaction_transactions,
      update_balance_transactions]⟩,
    ⟨rfl, by rw [record_transaction_transactions,
      update_balance_transactions]⟩⟩

/-- Witness for C9: alice empties her checking account (−1500 → 0), and
separately posts a zero amount. -/
theorem C9_witness :
    ((make_transaction sampleHash sampleState "alice" "1111" "C"
        (some (-1500)) "t1").1 = .success 0
      ∧ (make_transaction sampleHash sampleState "alice" "1111" "C"
          (some (-1500)) "t1").2.transactions =
          sampleState.transactions ++ [⟨1, "C", 1500, -1500, 0, "t1"⟩])
    ∧ ((make_transaction sampleHash sampleState "alice" "1111" "C"
        (some 0) "t1").1 = .success 1500
      ∧ (make_transaction sampleHash sampleState "alice" "1111" "C"
          (some 0) "t1").2.transactions =
          sampleState.transactions ++ [⟨1, "C", 1500, 0, 1500, "t1"⟩]) :=
  C9_zero_result_and_zero_amount_accepted sampleHash sampleState "alice"
    "1111" "C" "t1" alice 1500 (by decide) (by decide)
    (Or.inl (by decide)) (by decide) (by decide)

/-- C10: a transaction amount that fails numeric parsing (`ValueError`)
aborts the operation with the state unchanged — no balance change and no
audit record — whereas at account creation an unparseable initial
deposit is coerced to 0 and the account is still created. -/
theorem C10_malformed_amount_rejected (hash_pin : String → String)
    (st : BankState) (uIn pIn aIn : String) (now : String) (user : User)
    (old : Int)
    (hu : get_user st (strip uIn) = some user)
    (hp : hash_pin (strip pIn) = user.pinHash)
    (ht : upper (strip aIn) = "C" ∨ upper (strip aIn) = "S")
    (hb : get_balance st user.id (upper (strip aIn)) = some old) :
    make_transaction hash_pin st uIn pIn aIn none now =
      (.invalidAmount, st)
    ∧ ∀ uIn2 pIn2 nIn2 : String,
        strip uIn2 ≠ "" →
        get_user st (strip uIn2) = none →
        (isdigit (strip pIn2) && (strip pIn2).length == 4) = true →
        (create_account hash_pin st uIn2 pIn2 nIn2 none none).2.accounts =
          st.accounts ++ [⟨st.nextId, 0, 0⟩] := by
  constructor
  · exact make_transaction_invalidAmount hash_pin st uIn pIn aIn now user
      old hu hp ht hb
  · intro uIn2 pIn2 nIn2 hne hnew hpin
    unfold create_account
    simp [hne, hnew, hpin, create_user]

/-- Witness for C10: alice with an unparseable amount is rejected, while
creating `dave` with unparseable deposits yields a 0/0 account. -/
theorem C10_witness :
    make_transaction sampleHash sampleState "alice" "1111" "C" none "t1" =
      (.invalidAmount, sampleState)
    ∧ (create_account sampleHash sampleState "dave" "4444" "Dave" none
        none).2.accounts = sampleState.accounts ++ [⟨3, 0, 0⟩] := by
  have h := C10_malformed_amount_rejected sampleHash sampleState "alice"
    "1111" "C" "t1" alice 1500 (by decide) (by decide)
    (Or.inl (by decide)) (by decide)
  exact ⟨h.1, h.2 "dave" "4444" "Dave" (by decide) (by decide)
    (by decide)⟩

/-- C3 counterexample: creating an account with a syntactically valid
negative initial deposit (−50 for checking) stores the negative balance,
so account creation does not preserve non-negativity. -/
theorem C3_counterexample :
    ¬ balancesNonneg (create_account sampleHash emptyState "dave" "4444"
        "Dave" (some (-50)) none).2 := by
  unfold balancesNonneg
  decide

/-- C3 amended: transactions always preserve non-negativity of both
stored balances, deletion preserves it, and account creation preserves
it provided each initial deposit is unparseable (coerced to 0) or
non-negative; a parsed negative initial deposit is the one violation. -/
theorem C3_amended_nonneg_preserved (hash_pin : String → String)
    (st : BankState) (hinv : balancesNonneg st) :
    (∀ (uIn pIn aIn : String) (amtIn : Option Int) (now : String),
        balancesNonneg
          (make_transaction hash_pin st uIn pIn aIn amtIn now).2)
    ∧ (∀ (uIn pIn nIn : String) (cIn sIn : Option Int),
        0 ≤ cIn.getD 0 → 0 ≤ sIn.getD 0 →
        balancesNonneg (create_account hash_pin st uIn pIn nIn cIn sIn).2)
    ∧ (∀ uIn : String, balancesNonneg (delete_account st uIn).2) := by
  refine ⟨?_, ?_, ?_⟩
  · intro uIn pIn aIn amtIn now
    rcases make_transaction_snd_cases hash_pin st uIn pIn aIn amtIn now
      with h | ⟨uid, t, old, amt, hge, h⟩
    · rw [h]; exact hinv
    · rw [h]
      exact balancesNonneg_record_transaction _ _ _ _ _ _ _
        (balancesNonneg_update_balance st uid t (old + amt) hinv hge)
  · intro uIn pIn nIn cIn sIn hc hs
    unfold create_account
    dsimp only
    split
    · exact hinv
    · split
      · exact hinv
      · split
        · exact hinv
        · intro a ha
          unfold create_user at ha
          simp only [List.mem_append, List.mem_singleton] at ha
          rcases ha with ha | rfl
          · exact hinv a ha
          · exact ⟨hc, hs⟩
  · intro uIn
    unfold delete_account
    dsimp only
    split
    · exact hinv
    · intro a ha
      simp only [List.mem_filter] at ha
      exact hinv a ha.1

/-- Witness for C3 amended: the invariant holds after a withdrawal to
zero, after creating an account with deposits 20 / unparseable, and
after deleting bob. -/
theorem C3_amended_witness :
    balancesNonneg (make_transaction sampleHash sampleState "alice"
      "1111" "C" (some (-1500)) "t1").2
    ∧ balancesNonneg (create_account sampleHash sampleState "dave" "4444"
        "Dave" (some 20) none).2
    ∧ balancesNonneg (delete_account sampleState "bob").2 :=
  ⟨(C3_amended_nonneg_preserved sampleHash sampleState
      (by unfold balancesNonneg; decide)).1
      "alice" "1111" "C" (some (-1500)) "t1",
   (C3_amended_nonneg_preserved sampleHash sampleState
      (by unfold balancesNonneg; decide)).2.1
      "dave" "4444" "Dave" (some 20) none (by decide) (by decide),
   (C3_amended_nonneg_preserved sampleHash sampleState
      (by unfold balancesNonneg; decide)).2.2
      "bob"⟩

/-- C5 counterexample: three consecutive PIN mismatches leave the state
completely unchanged step by step (no attempt counter, no locked state),
and a correct PIN entered right after the third mismatch — with no reset
in between — authenticates and succeeds, contradicting the claimed
retry/lockout state machine. -/
theorem C5_counterexample :
    make_transaction sampleHash sampleState "alice" "9999" "C" (some 10)
      "t1" = (.invalidPin, sampleState)
    ∧ (make_transaction sampleHash
        (make_transaction sampleHash
          (make_transaction sampleHash sampleState "alice" "9999" "C"
            (some 10) "t1").2
          "alice" "9999" "C" (some 10) "t2").2
        "alice" "9999" "C" (some 10) "t3") = (.invalidPin, sampleState)
    ∧ (make_transaction sampleHash sampleState "alice" "1111" "C"
        (some 10) "t4").1 = .success 1510 := by decide

/-- C5 amended: any single PIN mismatch immediately aborts the
transaction flow with the state unchanged; there is no attempt counter,
no locked state and no reset sub-flow, so a correct PIN authenticates
regardless of how many mismatches preceded it. -/
theorem C5_amended_mismatch_aborts (hash_pin : String → String)
    (st : BankState) (uIn pIn aIn : String) (amtIn : Option Int)
    (now : String) (user : User)
    (hu : get_user st (strip uIn) = some user)
    (hp : hash_pin (strip pIn) ≠ user.pinHash) :
    make_transaction hash_pin st uIn pIn aIn amtIn now =
      (.invalidPin, st) :=
  make_transaction_invalidPin hash_pin st uIn pIn aIn amtIn now user hu hp

/-- Witness for C5 amended: a wrong PIN for alice aborts with the state
unchanged. -/
theorem C5_amended_witness :
    make_transaction sampleHash sampleState "alice" "0000" "C" (some 10)
      "t1" = (.invalidPin, sampleState) :=
  C5_amended_mismatch_aborts sampleHash sampleState "alice" "0000" "C"
    (some 10) "t1" alice (by decide) (by decide)

/-- C6 counterexample: `update_balance` stores a negative balance (−5)
without any rejection, and on a nonexistent account id (99) it silently
leaves the state unchanged instead of failing with `NotFound` — it
signals no error of any kind (its result type carries none). -/
theorem C6_counterexample :
    get_balance (update_balance sampleState 1 "C" (-5)) 1 "C" =
      some (-5)
    ∧ update_balance sampleState 99 "C" 7 = sampleState := by decide

/-- C6 amended: `update_balance` is an unconditional write: for an
existing account row it stores exactly the given value, negative or not,
and for a missing account id it is a silent no-op; no
`InvariantViolation` or `NotFound` error exists. -/
theorem C6_amended_update_unconditional (st : BankState) (uid : Nat)
    (t : String) (nb : Int) :
    (∀ row, st.accounts.find? (fun a => a.userId == uid) = some row →
        get_balance (update_balance st uid t nb) uid t = some nb)
    ∧ (st.accounts.find? (fun a => a.userId == uid) = none →
        update_balance st uid t nb = st) := by
  constructor
  · intro row h
    exact get_balance_update_balance st uid t nb row h
  · intro h
    have hall := List.find?_eq_none.mp h
    unfold update_balance
    have hmap : st.accounts.map (fun a =>
        if a.userId == uid then
          if t = "C" then { a with checking := nb }
          else { a with savings := nb }
        else a) = st.accounts := by
      conv_rhs => rw [← List.map_id st.accounts]
      apply List.map_congr_left
      intro a ha
      simp [hall a ha]
    rw [hmap]

/-- Witness for C6 amended: alice's row takes value 42 unconditionally,
and an update for the unknown id 99 is a no-op. -/
theorem C6_amended_witness :
    get_balance (update_balance sampleState 1 "C" 42) 1 "C" = some 42
    ∧ update_balance sampleState 99 "S" 7 = sampleState :=
  ⟨(C6_amended_update_unconditional sampleState 1 "C" 42).1 ⟨1, 1500, 500⟩
      (by decide),
   (C6_amended_update_unconditional sampleState 99 "S" 7).2 (by decide)⟩

/-- C7 counterexample: a single invalid PIN entry during account
creation aborts the whole setup with the state unchanged — no account is
created and no PIN is auto-generated (there is no retry loop at all). -/
theorem C7_counterexample :
    create_account sampleHash emptyState "erin" "12a4" "Erin" none none =
      (.invalidPinFormat, emptyState) := by decide

/-- C7 amended: account creation reads exactly one PIN entry; whenever
it is not a 4-digit numeric string the flow aborts with no account
created, rather than retrying or falling back to an auto-generated
PIN. -/
theorem C7_amended_invalid_pin_aborts_creation
    (hash_pin : String → String) (st : BankState)
    (uIn pIn nIn : String) (cIn sIn : Option Int)
    (hne : strip uIn ≠ "")
    (hnew : get_user st (strip uIn) = none)
    (hbad : (isdigit (strip pIn) && (strip pIn).length == 4) = false) :
    create_account hash_pin st uIn pIn nIn cIn sIn =
      (.invalidPinFormat, st) := by
  unfold create_account
  simp [hne, hnew, hbad]

/-- Witness for C7 amended: a 2-digit PIN aborts creation of `erin`. -/
theorem C7_amended_witness :
    create_account sampleHash emptyState "erin" "12" "Erin" none none =
      (.invalidPinFormat, emptyState) :=
  C7_amended_invalid_pin_aborts_creation sampleHash emptyState "erin"
    "12" "Erin" none none (by decide) (by decide) (by decide)

/-- C8 counterexample: after deleting alice, her account is gone from
lookup but her CSV audit record survives untouched — deletion does not
cascade to the CSV audit log. -/
theorem C8_counterexample :
    get_user (delete_account sampleState2 "alice").2 "alice" = none
    ∧ (delete_account sampleState2 "alice").2.csvLog =
        [⟨"t0", "alice", "C", 1500, 10, 1510⟩] := by decide

/-- C8 amended: deleting an existing account removes it from lookup by
username and by id and removes exactly its rows from the `transactions`
store, leaving all other users, accounts and transaction records
unchanged; records in the CSV audit log are not removed. -/
theorem C8_amended_delete_removes_db_records (st : BankState)
    (uIn : String) (user : User)
    (hu : get_user st (strip uIn) = some user)
    (huniq : ∀ u ∈ st.users, u.username = strip uIn → u.id = user.id) :
    (delete_account st uIn).1 = .deleted
    ∧ get_user (delete_account st uIn).2 (strip uIn) = none
    ∧ get_user_by_id (delete_account st uIn).2 user.id = none
    ∧ (delete_account st uIn).2.transactions =
        st.transactions.filter (fun t => !(t.userId == user.id))
    ∧ (delete_account st uIn).2.accounts =
        st.accounts.filter (fun a => !(a.userId == user.id))
    ∧ (delete_account st uIn).2.csvLog = st.csvLog := by
  unfold delete_account
  dsimp only
  rw [hu]
  refine ⟨rfl, ?_, ?_, rfl, rfl, rfl⟩
  · unfold get_user
    apply find?_filter_none
    intro u hu2 hp
    cases hq : (u.username == strip uIn) with
    | false => rfl
    | true =>
        exfalso
        have heq : u.username = strip uIn := by simpa using hq
        have hid := huniq u hu2 heq
        rw [hid] at hp
        simp at hp
  · unfold get_user_by_id
    apply find?_filter_none
    intro u hu2 hp
    simpa using hp

/-- Witness for C8 amended: deleting alice from a state where she has a
transaction record. -/
theorem C8_amended_witness :
    (delete_account sampleState2 "alice").1 = .deleted
    ∧ get_user (delete_account sampleState2 "alice").2 "alice" = none
    ∧ get_user_by_id (delete_account sampleState2 "alice").2 1 = none
    ∧ (delete_account sampleState2 "alice").2.transactions =
        sampleState2.transactions.filter (fun t => !(t.userId == 1))
    ∧ (delete_account sampleState2 "alice").2.accounts =
        sampleState2.accounts.filter (fun a => !(a.userId == 1))
    ∧ (delete_account sampleState2 "alice").2.csvLog =
        sampleState2.csvLog :=
  C8_amended_delete_removes_db_records sampleState2 "alice" alice
    (by decide) (by decide)
